import Mathlib

/-!
Verification of the form-validation and submission state machine of
CandidateForm.tsx, the single source file of the hirecoop-job-apply-design
repository. The definitions below are a shallow embedding of that component:
its field validators (including the two regular-expression tests), the
aggregate form validation, the submit handler with its simulated transport
effect, the reset action of the success screen, and the cover-letter word
count. Definitions whose names match the source keep those names.
-/

namespace HireCoop

/-- Whitespace class of a JavaScript regular expression (the class a
backslash-s atom matches), also the class the string trim operation removes. -/
def isJsWs (c : Char) : Bool :=
  c == ' ' || c == '\t' || c == '\n' || c == '\x0b' || c == '\x0c' || c == '\r' ||
  c == '\u00A0' || c == '\u1680' || (decide ('\u2000' ≤ c) && decide (c ≤ '\u200A')) ||
  c == '\u2028' || c == '\u2029' || c == '\u202F' || c == '\u205F' || c == '\u3000' ||
  c == '\uFEFF'

/-- Trim of a JavaScript string: leading and trailing whitespace removed. -/
def jsTrim (s : String) : String :=
  String.mk (((s.toList.dropWhile isJsWs).reverse.dropWhile isJsWs).reverse)

/-- One atom of an anchored JavaScript regular expression, as needed for the
two regex literals of the source: a literal character, an optional literal
character (question-mark quantifier), and a character class repeated at least
n times (the plus quantifier is min 1, the open brace quantifier is min n). -/
inductive Piece where
  | lit (c : Char)
  | opt (c : Char)
  | min (p : Char → Bool) (n : Nat)

/-- Backtracking matcher for an anchored sequence of regex pieces: true exactly
when the whole character list is consumed by the sequence. -/
def matchPieces : List Piece → List Char → Bool
  | [], cs => cs.isEmpty
  | Piece.lit c :: ps, cs =>
    match cs with
    | [] => false
    | d :: cs2 => d == c && matchPieces ps cs2
  | Piece.opt c :: ps, cs =>
    (match cs with
     | [] => false
     | d :: cs2 => d == c && matchPieces ps cs2) || matchPieces ps cs
  | Piece.min p n :: ps, cs =>
    (List.range (cs.length + 1)).any (fun k =>
      decide (n ≤ k) && (cs.take k).all p && matchPieces ps (cs.drop k))

/-- Character class of the email regex: anything but whitespace and the at
sign. -/
def emailOkChar (c : Char) : Bool := !(isJsWs c) && !(c == '@')

/-- Embeds validateEmail: the test of the anchored email regex of the source
(one class run, an at sign, a class run, a literal dot, a class run). -/
def validateEmail (email : String) : Bool :=
  matchPieces
    [Piece.min emailOkChar 1, Piece.lit '@', Piece.min emailOkChar 1,
     Piece.lit '.', Piece.min emailOkChar 1] email.toList

/-- Character class of the phone regex: digits, whitespace, hyphen, and
parentheses. -/
def phoneOkChar (c : Char) : Bool :=
  c.isDigit || isJsWs c || c == '-' || c == '(' || c == ')'

/-- Embeds validatePhoneNumber: an optional leading plus, then at least ten
characters of the phone character class. -/
def validatePhoneNumber (phone : String) : Bool :=
  matchPieces [Piece.opt '+', Piece.min phoneOkChar 10] phone.toList

/-- Browser file object as far as the form reads it: name, byte size, and the
declared MIME type. -/
structure File where
  name : String
  size : Nat
  type : String
  deriving DecidableEq

/-- Value passed to validateField: a string, a file, or null. -/
inductive Value where
  | vStr (s : String)
  | vFile (f : File)
  | vNull
  deriving DecidableEq

/-- JavaScript truthiness of a field value: the empty string and null are
falsy, every other string and every file is truthy. -/
def Value.truthy : Value → Bool
  | Value.vStr s => !(s == (""))
  | Value.vFile _ => true
  | Value.vNull => false

/-- MIME types the resume validator accepts. -/
def allowedTypes : List String :=
  [("application/pdf"),
   ("application/vnd.openxmlformats-officedocument.wordprocessingml.document"),
   ("application/msword")]

/-- Embeds validateField: dispatch on the field name, returning an optional
error message, none meaning valid. -/
def validateField (name : String) (value : Value) : Option String :=
  match name with
  | "fullName" =>
    if (!value.truthy ||
        (match value with
         | Value.vStr s => decide ((jsTrim s).length < 2)
         | _ => false)) = true then
      some ("Full name must be at least 2 characters")
    else none
  | "email" =>
    match value with
    | Value.vStr s =>
      if s = ("") then some ("Email is required")
      else if validateEmail s then none
      else some ("Please enter a valid email address")
    | _ => some ("Email is required")
  | "phoneNumber" =>
    match value with
    | Value.vStr s =>
      if s = ("") then some ("Phone number is required")
      else if validatePhoneNumber s then none
      else some ("Please enter a valid phone number with country code")
    | _ => some ("Phone number is required")
  | "resume" =>
    if value.truthy = false then some ("Resume is required")
    else
      match value with
      | Value.vFile f =>
        if 10 * 1024 * 1024 < f.size then some ("File size must be less than 10MB")
        else if allowedTypes.contains f.type then none
        else some ("Only PDF and DOCX files are allowed")
      | _ => none
  | _ => none

/-- The form draft held in component state. -/
structure FormData where
  fullName : String
  email : String
  phoneNumber : String
  resume : Option File
  coverLetter : String
  deriving DecidableEq

/-- Per-field validation errors held in component state; none means valid. -/
structure FormErrors where
  fullName : Option String
  email : Option String
  phoneNumber : Option String
  resume : Option String
  coverLetter : Option String
  deriving DecidableEq

/-- Converts the resume slot of the draft into the argument shape of
validateField. -/
def Value.ofResume : Option File → Value
  | some f => Value.vFile f
  | none => Value.vNull

/-- The whole component state: the draft, the error set, and the two
submission flags. -/
structure ComponentState where
  formData : FormData
  errors : FormErrors
  isSubmitting : Bool
  isSubmitted : Bool
  deriving DecidableEq

/-- Initial draft: every text field empty, no file. -/
def initialFormData : FormData :=
  { fullName := "", email := "", phoneNumber := "", resume := none, coverLetter := "" }

/-- Initial error set: no entries. -/
def initialErrors : FormErrors :=
  { fullName := none, email := none, phoneNumber := none, resume := none,
    coverLetter := none }

/-- Initial component state. -/
def initialState : ComponentState :=
  { formData := initialFormData, errors := initialErrors,
    isSubmitting := false, isSubmitted := false }

/-- Embeds validateForm: recompute the four required-field errors (the cover
letter gets no entry), replace the whole error set, and report validity when
no recomputed entry is present. -/
def validateForm (fd : FormData) : FormErrors × Bool :=
  let newErrors : FormErrors :=
    { fullName := validateField ("fullName") (Value.vStr fd.fullName),
      email := validateField ("email") (Value.vStr fd.email),
      phoneNumber := validateField ("phoneNumber") (Value.vStr fd.phoneNumber),
      resume := validateField ("resume") (Value.ofResume fd.resume),
      coverLetter := none }
  (newErrors,
   !(newErrors.fullName.isSome || newErrors.email.isSome ||
     newErrors.phoneNumber.isSome || newErrors.resume.isSome))

/-- Observable submission status: the success screen shows when isSubmitted is
set, otherwise the form shows, with a spinner while isSubmitting. -/
inductive SubmissionStatus where
  | Idle
  | Submitting
  | Submitted
  deriving DecidableEq

/-- SubmissionStatus read off the two boolean flags of the component. -/
def status (st : ComponentState) : SubmissionStatus :=
  if st.isSubmitted then SubmissionStatus.Submitted
  else if st.isSubmitting then SubmissionStatus.Submitting
  else SubmissionStatus.Idle

/-- Notification events handed to the toast collaborator. -/
inductive Toast where
  | validationError
  | submissionSucceeded
  | submissionFailed
  deriving DecidableEq

/-- Synchronous prefix of handleSubmit, up to the start of the simulated API
call: run validateForm (which replaces the error set), and when it reports
validity set isSubmitting; the boolean reports whether the delayed submission
effect was started. -/
def handleSubmitStart (st : ComponentState) : ComponentState × Bool :=
  let errs := (validateForm st.formData).1
  let valid := (validateForm st.formData).2
  if valid = false then ({ st with errors := errs }, false)
  else ({ st with errors := errs, isSubmitting := true }, true)

/-- Continuation of handleSubmit once the awaited effect settles: on success
set isSubmitted, and in either case clear isSubmitting (the finally block). -/
def handleSubmitComplete (transportOk : Bool) (st : ComponentState) : ComponentState :=
  if transportOk then { st with isSubmitted := true, isSubmitting := false }
  else { st with isSubmitting := false }

/-- Result of a whole submit attempt: the final state, whether the transport
effect was started, and the toasts emitted. -/
structure SubmitRun where
  state : ComponentState
  started : Bool
  toasts : List Toast
  deriving DecidableEq

/-- Embeds handleSubmit end to end, with the transport outcome as a parameter
(the stub of the source always succeeds; a rejected promise would take the
catch branch). -/
def handleSubmit (transportOk : Bool) (st : ComponentState) : SubmitRun :=
  let startRes := handleSubmitStart st
  if startRes.2 then
    { state := handleSubmitComplete transportOk startRes.1,
      started := true,
      toasts := [if transportOk then Toast.submissionSucceeded else Toast.submissionFailed] }
  else
    { state := startRes.1, started := false, toasts := [Toast.validationError] }

/-- Embeds the click handler of the Submit Another Application button on the
success screen: setIsSubmitted(false), and nothing else. -/
def resetAfterSubmission (st : ComponentState) : ComponentState :=
  { st with isSubmitted := false }

/-- Splits a character list at every whitespace character. The source splits
on whitespace runs; splitting at every single whitespace character instead
produces extra empty tokens, which the nonempty filter of wordCount discards,
so the counted tokens agree. -/
def splitAtWs : List Char → List (List Char)
  | [] => [[]]
  | c :: cs =>
    if isJsWs c then [] :: splitAtWs cs
    else
      match splitAtWs cs with
      | [] => [[c]]
      | t :: ts => (c :: t) :: ts

/-- Embeds wordCount: trim the cover letter, split on whitespace, drop empty
tokens, and count the rest. -/
def wordCount (coverLetter : String) : Nat :=
  ((splitAtWs (jsTrim coverLetter).toList).filter (fun w => decide (0 < w.length))).length

/-- Soft ceiling of the cover-letter word count, used only for a UI warning. -/
def maxWords : Nat := 500

/-- One user edit event, typed per field exactly as the call sites of
handleInputChange are. -/
inductive FieldEdit where
  | fullName (v : String)
  | email (v : String)
  | phoneNumber (v : String)
  | resume (v : Option File)
  | coverLetter (v : String)

/-- Embeds handleInputChange: store the value in the draft and run real-time
validation for that one field, recording its error slot. -/
def handleInputChange (e : FieldEdit) (st : ComponentState) : ComponentState :=
  match e with
  | FieldEdit.fullName v =>
    { st with formData := { st.formData with fullName := v },
              errors := { st.errors with fullName := validateField ("fullName") (Value.vStr v) } }
  | FieldEdit.email v =>
    { st with formData := { st.formData with email := v },
              errors := { st.errors with email := validateField ("email") (Value.vStr v) } }
  | FieldEdit.phoneNumber v =>
    { st with formData := { st.formData with phoneNumber := v },
              errors := { st.errors with phoneNumber := validateField ("phoneNumber") (Value.vStr v) } }
  | FieldEdit.resume v =>
    { st with formData := { st.formData with resume := v },
              errors := { st.errors with resume := validateField ("resume") (Value.ofResume v) } }
  | FieldEdit.coverLetter v =>
    { st with formData := { st.formData with coverLetter := v },
              errors := { st.errors with coverLetter := validateField ("coverLetter") (Value.vStr v) } }

/-- System state for the event semantics: the component state plus whether a
submission effect is in flight awaiting resolution. -/
structure SysState where
  comp : ComponentState
  pending : Bool

/-- Labels of the event steps. -/
inductive Label where
  | editL (e : FieldEdit)
  | submitL
  | resolveL (transportOk : Bool)
  | resetL

/-- Event-step semantics of the component. Edits and the submit click are only
available while the form view is rendered (isSubmitted false); the submit
click additionally requires the submit button to be enabled, and the source
sets its disabled attribute to isSubmitting; resolution fires when an effect
is in flight; the reset click is only available on the success screen. -/
inductive Step : SysState → Label → SysState → Prop where
  | edit (s : SysState) (e : FieldEdit) (h : s.comp.isSubmitted = false) :
      Step s (Label.editL e) { comp := handleInputChange e s.comp, pending := s.pending }
  | submitClick (s : SysState) (h1 : s.comp.isSubmitted = false)
      (h2 : s.comp.isSubmitting = false) :
      Step s Label.submitL
        { comp := (handleSubmitStart s.comp).1,
          pending := s.pending || (handleSubmitStart s.comp).2 }
  | resolve (s : SysState) (transportOk : Bool) (h : s.pending = true) :
      Step s (Label.resolveL transportOk)
        { comp := handleSubmitComplete transportOk s.comp, pending := false }
  | resetClick (s : SysState) (h : s.comp.isSubmitted = true) :
      Step s Label.resetL { comp := resetAfterSubmission s.comp, pending := s.pending }

/-- Initial system state: fresh component, no effect in flight. -/
def initSys : SysState := { comp := initialState, pending := false }

/-- Reachability along event steps from the initial state. -/
def Reachable (s : SysState) : Prop :=
  Relation.ReflTransGen (fun a b => ∃ l, Step a l b) initSys s

/-! Characterization of the regex matcher, relating the regex literals of the
source to the patterns the specification describes in words. -/

theorem matchPieces_nil_iff (cs : List Char) : matchPieces [] cs = true ↔ cs = [] := by
  simp [matchPieces]

theorem matchPieces_lit_iff (c : Char) (ps : List Piece) (cs : List Char) :
    matchPieces (Piece.lit c :: ps) cs = true ↔
      ∃ cs2, cs = c :: cs2 ∧ matchPieces ps cs2 = true := by
  cases cs with
  | nil => simp [matchPieces]
  | cons d cs2 =>
    simp only [matchPieces, Bool.and_eq_true, beq_iff_eq]
    constructor
    · rintro ⟨rfl, h⟩
      exact ⟨cs2, rfl, h⟩
    · rintro ⟨cs3, heq, h⟩
      cases heq
      exact ⟨rfl, h⟩

theorem matchPieces_opt_iff (c : Char) (ps : List Piece) (cs : List Char) :
    matchPieces (Piece.opt c :: ps) cs = true ↔
      ((∃ cs2, cs = c :: cs2 ∧ matchPieces ps cs2 = true) ∨ matchPieces ps cs = true) := by
  cases cs with
  | nil => simp [matchPieces]
  | cons d cs2 =>
    simp only [matchPieces, Bool.or_eq_true, Bool.and_eq_true, beq_iff_eq]
    constructor
    · rintro (⟨rfl, h⟩ | h)
      · exact Or.inl ⟨cs2, rfl, h⟩
      · exact Or.inr h
    · rintro (⟨cs3, heq, h⟩ | h)
      · cases heq
        exact Or.inl ⟨rfl, h⟩
      · exact Or.inr h

theorem matchPieces_min_iff (p : Char → Bool) (n : Nat) (ps : List Piece) (cs : List Char) :
    matchPieces (Piece.min p n :: ps) cs = true ↔
      ∃ xs ys, cs = xs ++ ys ∧ n ≤ xs.length ∧ (∀ c ∈ xs, p c = true) ∧
        matchPieces ps ys = true := by
  simp only [matchPieces, List.any_eq_true, List.mem_range, Bool.and_eq_true,
    decide_eq_true_eq, List.all_eq_true]
  constructor
  · rintro ⟨k, hk, ⟨hn, hall⟩, hm⟩
    have hkle : k ≤ cs.length := Nat.lt_succ_iff.mp hk
    refine ⟨cs.take k, cs.drop k, (List.take_append_drop k cs).symm, ?_, hall, hm⟩
    simpa [List.length_take, Nat.min_eq_left hkle] using hn
  · rintro ⟨xs, ys, rfl, hn, hall, hm⟩
    refine ⟨xs.length, ?_, ⟨?_, ?_⟩, ?_⟩
    · simp [List.length_append, Nat.lt_succ_iff]
    · simpa [List.length_take] using hn
    · intro c hc
      rw [List.take_left] at hc
      exact hall c hc
    · rw [List.drop_left]
      exact hm

/-- The email pattern as the specification words it: a nonempty run of
characters that are neither whitespace nor an at sign, an at sign, another
such run, a literal dot, and a trailing such run. -/
def emailSpec (s : String) : Prop :=
  ∃ u v w : List Char,
    s.toList = u ++ '@' :: (v ++ '.' :: w) ∧
    u ≠ [] ∧ v ≠ [] ∧ w ≠ [] ∧
    (∀ c ∈ u, emailOkChar c = true) ∧ (∀ c ∈ v, emailOkChar c = true) ∧
    (∀ c ∈ w, emailOkChar c = true)

theorem validateEmail_iff (s : String) : validateEmail s = true ↔ emailSpec s := by
  unfold validateEmail emailSpec
  rw [matchPieces_min_iff]
  constructor
  · rintro ⟨u, ys, hcs, hu1, hall1, hm⟩
    rw [matchPieces_lit_iff] at hm
    obtain ⟨ys2, rfl, hm⟩ := hm
    rw [matchPieces_min_iff] at hm
    obtain ⟨v, ys3, rfl, hv1, hall2, hm⟩ := hm
    rw [matchPieces_lit_iff] at hm
    obtain ⟨ys4, rfl, hm⟩ := hm
    rw [matchPieces_min_iff] at hm
    obtain ⟨w, ys5, rfl, hw1, hall3, hm⟩ := hm
    rw [matchPieces_nil_iff] at hm
    subst hm
    refine ⟨u, v, w, by simpa using hcs, ?_, ?_, ?_, hall1, hall2, hall3⟩
    · exact List.ne_nil_of_length_pos (Nat.lt_of_lt_of_le Nat.zero_lt_one hu1)
    · exact List.ne_nil_of_length_pos (Nat.lt_of_lt_of_le Nat.zero_lt_one hv1)
    · exact List.ne_nil_of_length_pos (Nat.lt_of_lt_of_le Nat.zero_lt_one hw1)
  · rintro ⟨u, v, w, hcs, hu, hv, hw, hall1, hall2, hall3⟩
    refine ⟨u, '@' :: (v ++ '.' :: w), hcs, List.length_pos.mpr hu, hall1, ?_⟩
    rw [matchPieces_lit_iff]
    refine ⟨v ++ '.' :: w, rfl, ?_⟩
    rw [matchPieces_min_iff]
    refine ⟨v, '.' :: w, rfl, List.length_pos.mpr hv, hall2, ?_⟩
    rw [matchPieces_lit_iff]
    refine ⟨w, rfl, ?_⟩
    rw [matchPieces_min_iff]
    exact ⟨w, [], (List.append_nil w).symm, List.length_pos.mpr hw, hall3,
      by rw [matchPieces_nil_iff]⟩

/-- The phone pattern as the specification words it: after an optional leading
plus, at least ten characters drawn from digits, whitespace, hyphens, and
parentheses. -/
def phoneSpec (s : String) : Prop :=
  ∃ t : List Char, (s.toList = '+' :: t ∨ s.toList = t) ∧ 10 ≤ t.length ∧
    ∀ c ∈ t, phoneOkChar c = true

theorem matchPieces_min_only_iff (p : Char → Bool) (n : Nat) (cs : List Char) :
    matchPieces [Piece.min p n] cs = true ↔
      n ≤ cs.length ∧ ∀ c ∈ cs, p c = true := by
  rw [matchPieces_min_iff]
  constructor
  · rintro ⟨xs, ys, rfl, hn, hall, hm⟩
    rw [matchPieces_nil_iff] at hm
    subst hm
    simpa using ⟨hn, hall⟩
  · rintro ⟨hn, hall⟩
    exact ⟨cs, [], (List.append_nil cs).symm, hn, hall, by rw [matchPieces_nil_iff]⟩

theorem validatePhoneNumber_iff (s : String) :
    validatePhoneNumber s = true ↔ phoneSpec s := by
  unfold validatePhoneNumber phoneSpec
  rw [matchPieces_opt_iff]
  constructor
  · rintro (⟨t, heq, hm⟩ | hm)
    · rw [matchPieces_min_only_iff] at hm
      exact ⟨t, Or.inl heq, hm.1, hm.2⟩
    · rw [matchPieces_min_only_iff] at hm
      exact ⟨s.toList, Or.inr rfl, hm.1, hm.2⟩
  · rintro ⟨t, (heq | heq), hn, hall⟩
    · exact Or.inl ⟨t, heq, (matchPieces_min_only_iff phoneOkChar 10 t).mpr ⟨hn, hall⟩⟩
    · rw [heq]
      exact Or.inr ((matchPieces_min_only_iff phoneOkChar 10 t).mpr ⟨hn, hall⟩)

/-- C4: the resume validator requires a present file, then checks the size
bound before the MIME type against the three allowed types; the concrete
examples of the specification behave as stated (an 11 MiB PDF hits the size
error, a 1 MiB PNG hits the type error, a 1 MiB PDF is valid). -/
theorem c4_resume_validator (v : Option File) :
    (validateField ("resume") (Value.ofResume v) =
      match v with
      | none => some ("Resume is required")
      | some f =>
        if 10 * 1024 * 1024 < f.size then some ("File size must be less than 10MB")
        else if f.type = ("application/pdf") ∨
            f.type = ("application/vnd.openxmlformats-officedocument.wordprocessingml.document") ∨
            f.type = ("application/msword") then none
        else some ("Only PDF and DOCX files are allowed")) ∧
    validateField ("resume") (Value.ofResume none) = some ("Resume is required") ∧
    validateField ("resume")
      (Value.ofResume (some { name := ("r.pdf"), size := 11534336, type := ("application/pdf") })) =
      some ("File size must be less than 10MB") ∧
    validateField ("resume")
      (Value.ofResume (some { name := ("r.png"), size := 1048576, type := ("image/png") })) =
      some ("Only PDF and DOCX files are allowed") ∧
    validateField ("resume")
      (Value.ofResume (some { name := ("r.pdf"), size := 1048576, type := ("application/pdf") })) =
      none := by
  refine ⟨?_, by decide, by decide, by decide, by decide⟩
  cases v with
  | none => rfl
  | some f =>
    show (if 10 * 1024 * 1024 < f.size then some ("File size must be less than 10MB")
          else if allowedTypes.contains f.type then none
          else some ("Only PDF and DOCX files are allowed")) = _
    by_cases hs : 10 * 1024 * 1024 < f.size
    · simp [hs]
    · by_cases ht : (f.type = ("application/pdf") ∨
          f.type = ("application/vnd.openxmlformats-officedocument.wordprocessingml.document") ∨
          f.type = ("application/msword"))
      · simp [hs, ht]
        simpa [allowedTypes] using ht
      · simp [hs, ht]
        simpa [allowedTypes] using ht

/-- C7: the full-name validator errs exactly on inputs that are empty or whose
trimmed length is below two, always with the same message; the four concrete
examples of the specification behave as stated. -/
theorem c7_fullName_validator (s : String) :
    (validateField ("fullName") (Value.vStr s) =
      if s = ("") ∨ (jsTrim s).length < 2 then
        some ("Full name must be at least 2 characters")
      else none) ∧
    validateField ("fullName") (Value.vStr ("")) ≠ none ∧
    validateField ("fullName") (Value.vStr ("A")) ≠ none ∧
    validateField ("fullName") (Value.vStr ("Al")) = none ∧
    validateField ("fullName") (Value.vStr ("  Al  ")) = none := by
  refine ⟨?_, by decide, by decide, by decide, by decide⟩
  show (if (!Value.truthy (Value.vStr s) || decide ((jsTrim s).length < 2)) = true then
          some ("Full name must be at least 2 characters") else none) = _
  by_cases h1 : s = ("")
  · subst h1
    simp [Value.truthy]
  · by_cases h2 : (jsTrim s).length < 2
    · simp [Value.truthy, h1, h2]
    · simp [Value.truthy, h1, h2]

/-- C8: the cover letter never produces an error entry, never affects form
validity, and its validator branch is the default one returning no error; the
word count and its soft ceiling behave as the specification states. -/
theorem c8_coverLetter_soft (fd : FormData) (c : String) :
    (validateForm fd).1.coverLetter = none ∧
    (validateForm { fd with coverLetter := c }).2 = (validateForm fd).2 ∧
    validateField ("coverLetter") (Value.vStr c) = none ∧
    wordCount ("") = 0 ∧
    wordCount ("one two  three") = 3 ∧
    maxWords = 500 :=
  ⟨rfl, rfl, rfl, by decide, by decide, rfl⟩

/-- C10: no branch of a submit attempt modifies the draft; validation failure,
transport success, and transport failure all leave every field of formData
untouched. -/
theorem c10_submit_frame (transportOk : Bool) (st : ComponentState) :
    (handleSubmit transportOk st).state.formData = st.formData := by
  cases hv : (validateForm st.formData).2 with
  | false => simp [handleSubmit, handleSubmitStart, hv]
  | true => cases transportOk <;>
      simp [handleSubmit, handleSubmitStart, handleSubmitComplete, hv]

/-- C5: the email validator distinguishes an empty input from a malformed one,
and accepts exactly the strings matching the specified pattern (a nonempty
non-whitespace non-at run, an at sign, another such run, a literal dot, and a
trailing such run); the concrete examples behave as stated. -/
theorem c5_email_validator (s : String) :
    (validateField ("email") (Value.vStr s) = some ("Email is required") ↔ s = ("")) ∧
    (validateField ("email") (Value.vStr s) = none ↔ (s ≠ ("") ∧ emailSpec s)) ∧
    (validateField ("email") (Value.vStr s) = some ("Please enter a valid email address") ↔
      (s ≠ ("") ∧ ¬ emailSpec s)) ∧
    validateField ("email") (Value.vStr ("a@b")) = some ("Please enter a valid email address") ∧
    validateField ("email") (Value.vStr ("a@b.com")) = none := by
  have hdisp : validateField ("email") (Value.vStr s) =
      if s = ("") then some ("Email is required")
      else if validateEmail s then none
      else some ("Please enter a valid email address") := rfl
  refine ⟨?_, ?_, ?_, by decide, by decide⟩ <;> rw [hdisp]
  · by_cases h1 : s = ("")
    · simp [h1]
    · cases hv : validateEmail s <;> simp [h1, hv]
  · by_cases h1 : s = ("")
    · simp [h1]
    · cases hv : validateEmail s with
      | false =>
        simp [h1, hv]
        intro hsp
        have htrue := (validateEmail_iff s).mpr hsp
        rw [htrue] at hv
        cases hv
      | true =>
        simp [h1, hv]
        exact (validateEmail_iff s).mp hv
  · by_cases h1 : s = ("")
    · simp [h1]
    · cases hv : validateEmail s with
      | false =>
        simp [h1, hv]
        intro hsp
        have htrue := (validateEmail_iff s).mpr hsp
        rw [htrue] at hv
        cases hv
      | true =>
        simp [h1, hv]
        exact (validateEmail_iff s).mp hv

/-- C6: the phone validator distinguishes an empty input from a malformed one,
and accepts exactly the strings that, after an optional leading plus, consist
of at least ten characters drawn from digits, whitespace, hyphens, and
parentheses; the concrete examples behave as stated. -/
theorem c6_phone_validator (s : String) :
    (validateField ("phoneNumber") (Value.vStr s) = some ("Phone number is required") ↔
      s = ("")) ∧
    (validateField ("phoneNumber") (Value.vStr s) = none ↔ (s ≠ ("") ∧ phoneSpec s)) ∧
    (validateField ("phoneNumber") (Value.vStr s) =
        some ("Please enter a valid phone number with country code") ↔
      (s ≠ ("") ∧ ¬ phoneSpec s)) ∧
    validateField ("phoneNumber") (Value.vStr ("12345")) =
      some ("Please enter a valid phone number with country code") ∧
    validateField ("phoneNumber") (Value.vStr ("+1 (555) 123-4567")) = none := by
  have hdisp : validateField ("phoneNumber") (Value.vStr s) =
      if s = ("") then some ("Phone number is required")
      else if validatePhoneNumber s then none
      else some ("Please enter a valid phone number with country code") := rfl
  refine ⟨?_, ?_, ?_, by decide, by decide⟩ <;> rw [hdisp]
  · by_cases h1 : s = ("")
    · simp [h1]
    · cases hv : validatePhoneNumber s <;> simp [h1, hv]
  · by_cases h1 : s = ("")
    · simp [h1]
    · cases hv : validatePhoneNumber s with
      | false =>
        simp [h1, hv]
        intro hsp
        have htrue := (validatePhoneNumber_iff s).mpr hsp
        rw [htrue] at hv
        cases hv
      | true =>
        simp [h1, hv]
        exact (validatePhoneNumber_iff s).mp hv
  · by_cases h1 : s = ("")
    · simp [h1]
    · cases hv : validatePhoneNumber s with
      | false =>
        simp [h1, hv]
        intro hsp
        have htrue := (validatePhoneNumber_iff s).mpr hsp
        rw [htrue] at hv
        cases hv
      | true =>
        simp [h1, hv]
        exact (validatePhoneNumber_iff s).mp hv

/-- Status is Idle exactly when both submission flags are clear. -/
theorem status_idle_iff (st : ComponentState) :
    status st = SubmissionStatus.Idle ↔ (st.isSubmitting = false ∧ st.isSubmitted = false) := by
  unfold status
  cases hsub : st.isSubmitted <;> cases hsing : st.isSubmitting <;> simp

/-- C1: when some required field of the draft is invalid, a submit attempt only
replaces the error set and emits a single validation toast: the status stays
Idle, the submitting flag is not set even transiently (the synchronous prefix
of handleSubmit returns before setIsSubmitting), and the delayed transport
effect is never started. -/
theorem c1_submission_gate (transportOk : Bool) (st : ComponentState)
    (hinv : validateField ("fullName") (Value.vStr st.formData.fullName) ≠ none ∨
      validateField ("email") (Value.vStr st.formData.email) ≠ none ∨
      validateField ("phoneNumber") (Value.vStr st.formData.phoneNumber) ≠ none ∨
      validateField ("resume") (Value.ofResume st.formData.resume) ≠ none)
    (hidle : status st = SubmissionStatus.Idle) :
    (handleSubmit transportOk st).state = { st with errors := (validateForm st.formData).1 } ∧
    status (handleSubmit transportOk st).state = SubmissionStatus.Idle ∧
    (handleSubmit transportOk st).started = false ∧
    (handleSubmit transportOk st).toasts = [Toast.validationError] ∧
    (handleSubmitStart st).2 = false ∧
    (handleSubmitStart st).1.isSubmitting = st.isSubmitting := by
  have hvalid : (validateForm st.formData).2 = false := by
    rcases hinv with h | h | h | h <;>
      simp [validateForm, Option.isSome_iff_ne_none, h]
  obtain ⟨hs1, hs2⟩ := (status_idle_iff st).mp hidle
  refine ⟨?_, ?_, ?_, ?_, ?_, ?_⟩ <;>
    simp [handleSubmit, handleSubmitStart, hvalid, status, hs1, hs2]

/-- Witness for C1 at the initial state: the empty draft has an invalid full
name, and a submit attempt there is gated. -/
theorem c1_submission_gate_witness :
    (handleSubmit true initialState).state =
      { initialState with errors := (validateForm initialState.formData).1 } ∧
    status (handleSubmit true initialState).state = SubmissionStatus.Idle ∧
    (handleSubmit true initialState).started = false ∧
    (handleSubmit true initialState).toasts = [Toast.validationError] ∧
    (handleSubmitStart initialState).2 = false ∧
    (handleSubmitStart initialState).1.isSubmitting = initialState.isSubmitting :=
  c1_submission_gate true initialState (Or.inl (by decide)) (by decide)

/-- A PDF file of one mebibyte, used by the concrete states below. -/
def fileOkPdf : File :=
  { name := ("resume.pdf"), size := 1048576, type := ("application/pdf") }

/-- A component state on the success screen holding a nonempty draft, as left
behind by a successful submission. -/
def submittedExample : ComponentState :=
  { formData :=
      { fullName := ("John Smith"),
        email := ("a@b.com"),
        phoneNumber := ("+1 (555) 123-4567"),
        resume := some fileOkPdf,
        coverLetter := ("") },
    errors := initialErrors,
    isSubmitting := false,
    isSubmitted := true }

/-- C2 counterexample: from a Submitted state, the reset action of the success
screen does not clear the draft back to its initial empty state — the full
name, among other fields, is still present afterwards. -/
theorem c2_reset_counterexample :
    status submittedExample = SubmissionStatus.Submitted ∧
    (resetAfterSubmission submittedExample).formData ≠ initialFormData ∧
    (resetAfterSubmission submittedExample).formData.fullName = ("John Smith") := by
  decide

/-- C2 amended: from the Submitted state, the reset action returns the status
to Idle, showing the form again, but leaves the draft and the error set
unchanged rather than clearing them. -/
theorem c2_reset_amended (st : ComponentState) (h1 : st.isSubmitted = true)
    (h2 : st.isSubmitting = false) :
    status st = SubmissionStatus.Submitted ∧
    status (resetAfterSubmission st) = SubmissionStatus.Idle ∧
    (resetAfterSubmission st).formData = st.formData ∧
    (resetAfterSubmission st).errors = st.errors := by
  refine ⟨?_, ?_, rfl, rfl⟩ <;> simp [status, resetAfterSubmission, h1, h2]

/-- Witness for the amended C2 at the concrete submitted state above. -/
theorem c2_reset_amended_witness :
    status submittedExample = SubmissionStatus.Submitted ∧
    status (resetAfterSubmission submittedExample) = SubmissionStatus.Idle ∧
    (resetAfterSubmission submittedExample).formData = submittedExample.formData ∧
    (resetAfterSubmission submittedExample).errors = submittedExample.errors :=
  c2_reset_amended submittedExample rfl rfl

/-- An edit never touches the submission flags. -/
theorem handleInputChange_isSubmitting (e : FieldEdit) (st : ComponentState) :
    (handleInputChange e st).isSubmitting = st.isSubmitting := by
  cases e <;> rfl

/-- When the synchronous prefix of handleSubmit starts the transport effect, it
has set the submitting flag. -/
theorem handleSubmitStart_started {st : ComponentState}
    (h : (handleSubmitStart st).2 = true) : (handleSubmitStart st).1.isSubmitting = true := by
  unfold handleSubmitStart at h ⊢
  by_cases hv : (validateForm st.formData).2 = false <;> simp [hv] at h ⊢

/-- Invariant of the event semantics: in every reachable system state, an
in-flight submission effect implies the submitting flag is set. -/
theorem reachable_pending_isSubmitting {s : SysState} (h : Reachable s) :
    s.pending = true → s.comp.isSubmitting = true := by
  induction h with
  | refl => intro hp; cases hp
  | tail hab hbc ih =>
    obtain ⟨l, hstep⟩ := hbc
    cases hstep with
    | edit e hsub =>
      intro hp
      rw [handleInputChange_isSubmitting]
      exact ih hp
    | submitClick hsub hflag =>
      intro hp
      rcases Bool.or_eq_true_iff.mp hp with hpend | hstart
      · rw [ih hpend] at hflag
        cases hflag
      · exact handleSubmitStart_started hstart
    | resolve transportOk hpend =>
      intro hp
      cases hp
    | resetClick hsub =>
      intro hp
      exact ih hp

/-- C9: from any reachable system state with a submission effect in flight, no
submit step exists — the submit button is disabled throughout the Submitting
window, so a second transport invocation can never start before the first
completes. -/
theorem c9_no_concurrent_submit (s : SysState) (h : Reachable s) (hp : s.pending = true) :
    ¬ ∃ s2, Step s Label.submitL s2 := by
  rintro ⟨s2, hstep⟩
  cases hstep with
  | submitClick hsub hflag =>
    rw [reachable_pending_isSubmitting h hp] at hflag
    cases hflag

/-- Component state after typing a fully valid draft into the fresh form. -/
def draftedComp : ComponentState :=
  handleInputChange (FieldEdit.resume (some fileOkPdf))
    (handleInputChange (FieldEdit.phoneNumber ("+1 (555) 123-4567"))
      (handleInputChange (FieldEdit.email ("a@b.com"))
        (handleInputChange (FieldEdit.fullName ("John Smith")) initialState)))

/-- Intermediate system states of the witness trace. -/
def sysAfterName : SysState :=
  { comp := handleInputChange (FieldEdit.fullName ("John Smith")) initialState,
    pending := false }

/-- System state after the second edit of the witness trace. -/
def sysAfterEmail : SysState :=
  { comp := handleInputChange (FieldEdit.email ("a@b.com")) sysAfterName.comp,
    pending := false }

/-- System state after the third edit of the witness trace. -/
def sysAfterPhone : SysState :=
  { comp := handleInputChange (FieldEdit.phoneNumber ("+1 (555) 123-4567")) sysAfterEmail.comp,
    pending := false }

/-- System state holding the full valid draft. -/
def sysDrafted : SysState := { comp := draftedComp, pending := false }

/-- System state reached right after a valid submit click, with the simulated
transport effect in flight. -/
def submittingSys : SysState :=
  { comp := (handleSubmitStart draftedComp).1,
    pending := false || (handleSubmitStart draftedComp).2 }

/-- Witness for C9: the concrete reachable in-flight state refuses a second
submit step. -/
theorem c9_no_concurrent_submit_witness :
    ¬ ∃ s2, Step submittingSys Label.submitL s2 := by
  have h0 : Reachable initSys := Relation.ReflTransGen.refl
  have h1 : Reachable sysAfterName :=
    h0.tail ⟨Label.editL (FieldEdit.fullName ("John Smith")),
      Step.edit initSys (FieldEdit.fullName ("John Smith")) rfl⟩
  have h2 : Reachable sysAfterEmail :=
    h1.tail ⟨Label.editL (FieldEdit.email ("a@b.com")),
      Step.edit sysAfterName (FieldEdit.email ("a@b.com")) rfl⟩
  have h3 : Reachable sysAfterPhone :=
    h2.tail ⟨Label.editL (FieldEdit.phoneNumber ("+1 (555) 123-4567")),
      Step.edit sysAfterEmail (FieldEdit.phoneNumber ("+1 (555) 123-4567")) rfl⟩
  have h4 : Reachable sysDrafted :=
    h3.tail ⟨Label.editL (FieldEdit.resume (some fileOkPdf)),
      Step.edit sysAfterPhone (FieldEdit.resume (some fileOkPdf)) rfl⟩
  have h5 : Reachable submittingSys :=
    h4.tail ⟨Label.submitL, Step.submitClick sysDrafted rfl rfl⟩
  exact c9_no_concurrent_submit submittingSys h5 (by decide)

end HireCoop
